import Mathlib

/-!
# Verification of the django-tutorial repository's query-engine specification

The repository consists of Django tutorial snippets: model declarations and
doctest-style shell transcripts with their expected outputs
(`src/ModelLayer.py`), a polls application (`src/django-polls/…/models.py`,
`src/djangotutorial/polls/views.py`) and index declarations.  The only
executable algorithm in the sources is `Question.was_published_recently`.
The query engine itself (querysets, lookups, JSON containment, caching,
aggregation) is not implemented in the repository — only its callers and
their expected outputs appear — so those parts are modelled from the
specification and validated against the literal transcripts recorded in
`src/ModelLayer.py`, which serve as the repository's test oracle.
-/

namespace DjangoTutorial

/-! ## C10 — `Question.was_published_recently` (src/django-polls/django_polls/models.py:21-24)

The active code is
`return timezone.now() - datetime.timedelta(days=1) <= self.pub_date <= timezone.now()`.
Time instants are modelled as integers (seconds since an arbitrary epoch);
`datetime.timedelta(days=1)` is 86400 seconds. Python's chained comparison
`a <= b <= c` is the conjunction `a <= b and b <= c`. -/

def oneDay : Int := 86400

def was_published_recently (now pub_date : Int) : Bool :=
  decide (now - oneDay ≤ pub_date) && decide (pub_date ≤ now)

/-! ## C4 — model instance equality (src/ModelLayer.py:385-396)

Modelled from the spec: the engine's row-equality operation is not
implemented in the repository; `src/ModelLayer.py` lines 372-396 only list
its expected outcomes.  "Two rows are equal iff same concrete table and
same non-null primary key (not mere attribute equality); a row with a null
primary key is equal only to itself (identity equality only, never equal
to another unsaved row, even one with identical null key)."
`instId` models Python object identity: every constructed instance carries
a fresh identifier, so `a.instId = b.instId` holds exactly of the identical
instance.  `concrete` is the concrete table: a proxy model shares its
parent's concrete table, a multi-table-inherited model has its own. -/

structure Instance where
  instId : Nat
  concrete : String
  pk : Option Int
  attrs : List (String × String)
deriving Repr, DecidableEq

def modelEq (a b : Instance) : Bool :=
  if a.concrete ≠ b.concrete then false
  else
    match a.pk with
    | none => a.instId == b.instId
    | some x => b.pk == some x

/-- The fixture of src/ModelLayer.py:385-396. -/
def myModel1  : Instance := ⟨0, "MyModel", some 1, []⟩

def myModel1b : Instance := ⟨1, "MyModel", some 1, []⟩

def myModel2  : Instance := ⟨2, "MyModel", some 2, []⟩

def myModelN1 : Instance := ⟨3, "MyModel", none, []⟩

def myModelN2 : Instance := ⟨4, "MyModel", none, []⟩

def myProxy1  : Instance := ⟨5, "MyModel", some 1, []⟩

def myMulti1  : Instance := ⟨6, "MultitableInherited", some 1, []⟩

/-! ## Queryset evaluation and caching (C5, C7)

Modelled from the spec: the Record Store, Condition Tree, lazy Queryset
with result cache and the single-result fetch `get` are not implemented in
the repository; `src/ModelLayer.py` lines 145-161 record only the
caching behaviour of evaluation triggers and lines 58-59 a `get` call.
A `Queryset` holds the condition it describes and an optional result
cache; evaluation triggers return the produced value together with the
(possibly updated) Queryset handle, making the cache state explicit. -/

structure DRow where
  pk : Nat
  headline : String
deriving Repr, DecidableEq

inductive Cond where
  | all
  | headlineIs (s : String)
  | pkGt (n : Nat)
deriving Repr, DecidableEq

def evalCond : Cond → DRow → Bool
  | .all, _ => true
  | .headlineIs s, r => r.headline == s
  | .pkGt n, r => n < r.pk

def runQuery (store : List DRow) (c : Cond) : List DRow :=
  store.filter (evalCond c)

structure Queryset where
  cond : Cond
  cache : Option (List DRow)
deriving Repr, DecidableEq

/-- Full-collection evaluation (iteration, `list()`): reuses the cache when
present, otherwise queries the store and populates the cache. -/
def Queryset.evalFull (qs : Queryset) (store : List DRow) :
    List DRow × Queryset :=
  match qs.cache with
  | some rs => (rs, qs)
  | none =>
      let rs := runQuery store qs.cond
      (rs, { qs with cache := some rs })

/-- Single-index access: on an unevaluated Queryset it queries the store
directly and does NOT populate the cache; after a full evaluation it reads
the cached list. -/
def Queryset.indexAccess (qs : Queryset) (store : List DRow) (i : Nat) :
    Option DRow × Queryset :=
  match qs.cache with
  | some rs => (rs[i]?, qs)
  | none => ((runQuery store qs.cond)[i]?, qs)

/-- `bool()`: a full-collection evaluation trigger. -/
def Queryset.boolEval (qs : Queryset) (store : List DRow) :
    Bool × Queryset :=
  let (rs, qs2) := qs.evalFull store
  (!rs.isEmpty, qs2)

/-- Membership test (`entry in queryset`): a full-collection evaluation
trigger. -/
def Queryset.memberEval (qs : Queryset) (store : List DRow) (r : DRow) :
    Bool × Queryset :=
  let (rs, qs2) := qs.evalFull store
  (rs.contains r, qs2)

/-- Error kinds of the single-result fetch. -/
inductive GetError where
  | doesNotExist
  | multipleResults
deriving Repr, DecidableEq

/-- Modelled from the spec: the single-result fetch `get` (used at
src/ModelLayer.py:58-59 and, via `get_object_or_404`, at
src/djangotutorial/polls/views.py:35) is not implemented in the
repository.  It raises `DoesNotExist` on zero matches and
`MultipleResultsError` on more than one match, synchronously at the call,
modelled as an `Except` result. -/
def getOne (store : List DRow) (c : Cond) : Except GetError DRow :=
  match runQuery store c with
  | [] => .error .doesNotExist
  | [r] => .ok r
  | _ :: _ :: _ => .error .multipleResults

/-- Fixture mirroring the queryset-caching transcript of
src/ModelLayer.py:145-161 (six entries so that index 5 exists). -/
def entryStore : List DRow :=
  [⟨1, "First entry"⟩, ⟨2, "Second entry"⟩, ⟨3, "Third entry"⟩,
   ⟨4, "Fourth entry"⟩, ⟨5, "Fifth entry"⟩, ⟨6, "Sixth entry"⟩]

/-- A mutated store state, as observed between two reads. -/
def entryStoreMut : List DRow :=
  ⟨0, "Inserted entry"⟩ :: entryStore

def freshAllQS : Queryset := ⟨Cond.all, none⟩

/-! ## JSON documents and JSON lookups (C2, C3, C9)

Modelled from the spec: the JSON-field Lookup Evaluator (path descent,
`isnull`, `contains`, `contained_by`) is not implemented in the
repository; `src/ModelLayer.py` lines 163-283 record the `Dog` fixtures
and the expected outputs of each lookup.  A stored JSON column value is
`Option JSONVal`: `none` is SQL-null (field absent), `some .null` is the
distinct JSON-null document.  Recursions over documents are driven by an
explicit fuel bounded below by `sizeOf`, which strictly exceeds the
recursion depth, so the fuel never runs out. -/

mutual
inductive JSONVal where
  | null
  | bool (b : Bool)
  | num (n : Int)
  | str (s : String)
  | arr (xs : JArr)
  | obj (kvs : JObj)
deriving DecidableEq, Repr

inductive JArr where
  | nil
  | cons (hd : JSONVal) (tl : JArr)
deriving DecidableEq, Repr

inductive JObj where
  | nil
  | cons (key : String) (val : JSONVal) (tl : JObj)
deriving DecidableEq, Repr
end

/-- Build a JSON sequence from a Lean list (notation helper). -/
def toJArr : List JSONVal → JArr
  | [] => .nil
  | x :: xs => .cons x (toJArr xs)

/-- Build a JSON mapping from a Lean association list (notation helper). -/
def toJObj : List (String × JSONVal) → JObj
  | [] => .nil
  | (k, v) :: kvs => .cons k v (toJObj kvs)

def JSONVal.arrL (xs : List JSONVal) : JSONVal := .arr (toJArr xs)

def JSONVal.objL (kvs : List (String × JSONVal)) : JSONVal := .obj (toJObj kvs)

/-! Size of a document: fuel source for the recursions below; it strictly
exceeds the depth of any containment recursion, so the fuel never runs
out. -/
mutual
def jsize : JSONVal → Nat
  | .null | .bool _ | .num _ | .str _ => 1
  | .arr xs => 1 + jsizeA xs
  | .obj kvs => 1 + jsizeO kvs

def jsizeA : JArr → Nat
  | .nil => 1
  | .cons h t => 1 + jsize h + jsizeA t

def jsizeO : JObj → Nat
  | .nil => 1
  | .cons _ v t => 1 + jsize v + jsizeO t
end

/-- Look up a key in a JSON mapping (first occurrence). -/
def jObjFind : JObj → String → Option JSONVal
  | .nil, _ => none
  | .cons k v rest, s => if k == s then some v else jObjFind rest s

/-- Index into a JSON sequence. -/
def jArrGet : JArr → Nat → Option JSONVal
  | .nil, _ => none
  | .cons h _, 0 => some h
  | .cons _ t, n + 1 => jArrGet t n

/-- Equality of JSON scalars (containers are never `scalarEqJ`-equal). -/
def scalarEqJ : JSONVal → JSONVal → Bool
  | .null, .null => true
  | .bool a, .bool b => a == b
  | .num a, .num b => a == b
  | .str a, .str b => a == b
  | _, _ => false

/-! Structural containment, fuelled: operand inside target — for
mappings, every key of the operand exists in the target (key order
irrelevant) with a containing value; for sequences, every element of the
operand is contained in some element of the target (order irrelevant,
matching the recorded outputs of src/ModelLayer.py:239-262); scalars by
equality; recursively for nested documents. -/
mutual
def jContainsF : Nat → JSONVal → JSONVal → Bool
  | 0, _, _ => false
  | fuel + 1, t, o =>
    match t, o with
    | .obj ts, .obj os => jObjSubF fuel ts os
    | .arr ts, .arr os => jArrSubF fuel ts os
    | t, o => scalarEqJ t o

def jObjSubF : Nat → JObj → JObj → Bool
  | 0, _, _ => false
  | _ + 1, _, .nil => true
  | fuel + 1, ts, .cons k v rest =>
      (match jObjFind ts k with
       | some w => jContainsF fuel w v
       | none => false) && jObjSubF fuel ts rest

def jArrSubF : Nat → JArr → JArr → Bool
  | 0, _, _ => false
  | _ + 1, _, .nil => true
  | fuel + 1, ts, .cons v rest => jArrMemF fuel ts v && jArrSubF fuel ts rest

def jArrMemF : Nat → JArr → JSONVal → Bool
  | 0, _, _ => false
  | _ + 1, .nil, _ => false
  | fuel + 1, .cons w rest, v => jContainsF fuel w v || jArrMemF fuel rest v
end

def jsonContains (t o : JSONVal) : Bool :=
  jContainsF (jsize t + jsize o) t o

def jObjLen : JObj → Nat
  | .nil => 0
  | .cons _ _ rest => 1 + jObjLen rest

/-! Structural JSON equality, fuelled: mappings compare
key-order-insensitively (assuming unique keys), sequences elementwise in
order. -/
mutual
def jEqF : Nat → JSONVal → JSONVal → Bool
  | 0, _, _ => false
  | fuel + 1, t, o =>
    match t, o with
    | .obj ts, .obj os => jObjLen ts == jObjLen os && jObjEqF fuel ts os
    | .arr ts, .arr os => jArrEqF fuel ts os
    | t, o => scalarEqJ t o

def jArrEqF : Nat → JArr → JArr → Bool
  | 0, _, _ => false
  | _ + 1, .nil, .nil => true
  | fuel + 1, .cons a as, .cons b bs => jEqF fuel a b && jArrEqF fuel as bs
  | _ + 1, _, _ => false

def jObjEqF : Nat → JObj → JObj → Bool
  | 0, _, _ => false
  | _ + 1, _, .nil => true
  | fuel + 1, ts, .cons k v rest =>
      (match jObjFind ts k with
       | some w => jEqF fuel w v
       | none => false) && jObjEqF fuel ts rest
end

def jsonEq (a b : JSONVal) : Bool :=
  jEqF (jsize a + jsize b) a b

/-! The containment relation exactly as the specification sentence words
it, with sequences compared ORDER-SENSITIVELY: the operand sequence must
be an exact subsequence of the target sequence's elements (order
preserved), recursively.  Written to compare against the engine's
`jsonContains`. -/
mutual
def specCF : Nat → JSONVal → JSONVal → Bool
  | 0, _, _ => false
  | fuel + 1, t, o =>
    match t, o with
    | .obj ts, .obj os => specObjF fuel ts os
    | .arr ts, .arr os => specSeqF fuel ts os
    | t, o => scalarEqJ t o

def specObjF : Nat → JObj → JObj → Bool
  | 0, _, _ => false
  | _ + 1, _, .nil => true
  | fuel + 1, ts, .cons k v rest =>
      (match jObjFind ts k with
       | some w => specCF fuel w v
       | none => false) && specObjF fuel ts rest

def specSeqF : Nat → JArr → JArr → Bool
  | 0, _, _ => false
  | _ + 1, _, .nil => true
  | _ + 1, .nil, .cons _ _ => false
  | fuel + 1, .cons t ts, .cons o os =>
      (specCF fuel t o && specSeqF fuel ts os) || specSeqF fuel ts (.cons o os)
end

/-- The specification's order-sensitive structural-subset relation:
`specStructSubset t o` = "`o` is a structural subset of `t`" with
sequence containment as exact-subsequence-of-elements. -/
def specStructSubset (t o : JSONVal) : Bool :=
  specCF (2 * (jsize t + jsize o)) t o

structure Dog where
  pk : Nat
  name : String
  data : Option JSONVal
deriving DecidableEq, Repr

def filterContains (dogs : List Dog) (x : JSONVal) : List Dog :=
  dogs.filter fun d =>
    match d.data with
    | some dv => jsonContains dv x
    | none => false

def filterContainedBy (dogs : List Dog) (x : JSONVal) : List Dog :=
  dogs.filter fun d =>
    match d.data with
    | some dv => jsonContains x dv
    | none => false

/-- `data__isnull=b`: tests SQL-null (absence) only. -/
def filterIsNull (dogs : List Dog) (b : Bool) : List Dog :=
  dogs.filter fun d => d.data.isNone == b

/-- Parse a path segment as a numeric sequence index. -/
def parseIndexGo : List Char → Nat → Option Nat
  | [], acc => some acc
  | c :: cs, acc =>
      if c.isDigit then parseIndexGo cs (acc * 10 + (c.toNat - 48)) else none

def parseIndex (s : String) : Option Nat :=
  match s.data with
  | [] => none
  | cs => parseIndexGo cs 0

/-- JSON path descent: each segment descends by mapping key or numeric
sequence index; a segment that does not exist in the document yields
`none`. -/
def descend : JSONVal → List String → Option JSONVal
  | v, [] => some v
  | .obj kvs, s :: rest =>
      match jObjFind kvs s with
      | some v => descend v rest
      | none => none
  | .arr xs, s :: rest =>
      match parseIndex s with
      | some n =>
          match jArrGet xs n with
          | some v => descend v rest
          | none => none
      | none => none
  | _, _ :: _ => none

/-- Exact lookup through a JSON path: total — a missing path is "no
match", never an error. -/
def pathExact (d : Dog) (path : List String) (v : JSONVal) : Bool :=
  match d.data with
  | none => false
  | some doc =>
      match descend doc path with
      | some w => jsonEq w v
      | none => false

def filterPathExact (dogs : List Dog) (path : List String) (v : JSONVal) :
    List Dog :=
  dogs.filter fun d => pathExact d path v

/-- Fixture of src/ModelLayer.py:170-181: Max stores SQL NULL, Archie
stores JSON null. -/
def maxDog : Dog := ⟨1, "Max", none⟩

def archieDog : Dog := ⟨2, "Archie", some .null⟩

def nullDogTable : List Dog := [maxDog, archieDog]

/-- Fixture of src/ModelLayer.py:184-213. -/
def rufusNested : Dog :=
  ⟨1, "Rufus", some (.objL
    [("breed", .str "labrador"),
     ("owner", .objL
       [("name", .str "Bob"),
        ("other_pets", .arrL [.objL [("name", .str "Fishy")]])])])⟩

def megNested : Dog :=
  ⟨2, "Meg", some (.objL [("breed", .str "collie"), ("owner", .null)])⟩

/-- Shep (src/ModelLayer.py:210) is created only after the three path
queries of lines 201-208 run, so the table those queries see is
`[Rufus, Meg]`. -/
def shepNested : Dog :=
  ⟨3, "Shep", some (.objL [("breed", .str "collie")])⟩

def nestedDogTable : List Dog := [rufusNested, megNested]

/-- Fixture of src/ModelLayer.py:230-262 (the `contains`/`contained_by`
blocks create the same four dogs). -/
def rufusDog : Dog :=
  ⟨1, "Rufus", some (.objL [("breed", .str "labrador"), ("owner", .str "Bob")])⟩

def megDog : Dog :=
  ⟨2, "Meg", some (.objL [("breed", .str "collie"), ("owner", .str "Bob")])⟩

def fredDog : Dog := ⟨3, "Fred", some (.objL [])⟩

def merryDog : Dog :=
  ⟨4, "Merry", some (.objL
    [("breed", .str "pekingese"),
     ("tricks", .arrL [.str "fetch", .str "dance"])])⟩

def containsDogTable : List Dog := [rufusDog, megDog, fredDog, merryDog]

def merryData : JSONVal :=
  .objL [("breed", .str "pekingese"),
         ("tricks", .arrL [.str "fetch", .str "dance"])]

/-- The operand of src/ModelLayer.py:259-262. -/
def pekingeseOperand : JSONVal :=
  .objL [("breed", .str "pekingese"),
         ("tricks", .arrL [.str "dance", .str "fetch", .str "hug"])]

/-! ## Relation-spanning filters (C1)

Modelled from the spec: the Relation Resolver and the join semantics of
`filter` on a reverse-foreign-key path are not implemented in the
repository; `src/ModelLayer.py` lines 72-109 record the fixture and the
expected outputs of `Blog.objects.filter(entry__headline__contains=…,
entry__pub_date__year=…)` in one call versus chained calls.  A filter call
whose conditions span the `entry` relation joins the current row list with
the entry table: each current row produces one output copy per related
entry satisfying the conditions.  Chaining a second `.filter()` re-joins
from the rows produced so far rather than narrowing the previous join. -/

structure BlogR where
  pk : Nat
  name : String
deriving Repr, DecidableEq

structure EntryR where
  blogId : Nat
  headline : String
  pubYear : Nat
deriving Repr, DecidableEq

/-- Byte-exact substring test (`LIKE %needle%` with case preserved),
on the underlying character lists. -/
def chrPrefixOf : List Char → List Char → Bool
  | [], _ => true
  | _ :: _, [] => false
  | a :: as, b :: bs => a == b && chrPrefixOf as bs

def chrSubOf (needle : List Char) : List Char → Bool
  | [] => chrPrefixOf needle []
  | h :: t => chrPrefixOf needle (h :: t) || chrSubOf needle t

def strContains (hay needle : String) : Bool :=
  chrSubOf needle.data hay.data

/-- Conditions on the `entry` relation path, as appearing in
src/ModelLayer.py:99-109 (`entry__headline__contains`,
`entry__pub_date__year`); `both` is the implicit AND of two lookups
passed to one `filter` call. -/
inductive EntryCond where
  | headlineContains (s : String)
  | pubDateYear (y : Nat)
  | both (c1 c2 : EntryCond)
deriving Repr, DecidableEq

def evalEntryCond : EntryCond → EntryR → Bool
  | .headlineContains s, e => strContains e.headline s
  | .pubDateYear y, e => e.pubYear == y
  | .both c1 c2, e => evalEntryCond c1 e && evalEntryCond c2 e

/-- One `filter` call with conditions on the `entry` path: joins every
current row with the entries of its blog that satisfy the condition,
emitting one copy of the row per matching entry. -/
def blogFilterEntry (blogs : List BlogR) (entries : List EntryR)
    (c : EntryCond) : List BlogR :=
  blogs.flatMap fun b =>
    (entries.filter fun e => e.blogId == b.pk && evalEntryCond c e).map
      fun _ => b

/-- `filter(A).filter(B)`: the second call re-joins from the rows the
first call produced. -/
def blogFilterEntryChained (blogs : List BlogR) (entries : List EntryR)
    (c1 c2 : EntryCond) : List BlogR :=
  blogFilterEntry (blogFilterEntry blogs entries c1) entries c2

/-- Fixture of src/ModelLayer.py:72-98. -/
def beatlesBlog : BlogR := ⟨1, "Beatles Blog"⟩

def popBlog : BlogR := ⟨2, "Pop Music Blog"⟩

def blogTable : List BlogR := [beatlesBlog, popBlog]

def entryTable : List EntryR :=
  [⟨1, "New Lennon Biography", 2008⟩,
   ⟨1, "New Lennon Biography in Paperback", 2009⟩,
   ⟨2, "Best Albums of 2008", 2008⟩,
   ⟨2, "Lennon Would Have Loved Hip Hop", 2020⟩]

def lennonCond : EntryCond := .headlineContains "Lennon"

def year2008Cond : EntryCond := .pubDateYear 2008

/-! ## Grouped aggregation (C6)

Modelled from the spec: the Aggregation/Annotation Engine is not
implemented in the repository; `src/ModelLayer.py` lines 335-339 record
the two granularities of `Blog.objects.values("entry__authors",
entries=Count("entry"))` (two result rows, counts 20 and 13) versus
`Blog.objects.values("entry__authors").annotate(entries=Count("entry"))`
(one result row, count 33).  The joined (blog, author-value) rows are the
input; `values()` before `annotate` groups by the `values()` field alone,
while attaching the aggregate without that grouping groups per
(base-row pk, field value). -/

structure JoinRow where
  blogPk : Nat
  authorId : Nat
deriving Repr, DecidableEq

/-- Deduplicate keeping first occurrences (`seen` accumulates keys already
emitted). -/
def dedupGo {α : Type} [DecidableEq α] : List α → List α → List α
  | _, [] => []
  | seen, x :: xs =>
      if x ∈ seen then dedupGo seen xs else x :: dedupGo (x :: seen) xs

def dedupKeys {α : Type} [DecidableEq α] (xs : List α) : List α :=
  dedupGo [] xs

/-- `values("entry__authors").annotate(entries=Count("entry"))`: one output
row per distinct value of the grouped field over exactly the rows
satisfying the condition, with the aggregate computed over that group. -/
def valuesThenAnnotate (rows : List JoinRow) (c : JoinRow → Bool) :
    List (Nat × Nat) :=
  (dedupKeys ((rows.filter c).map JoinRow.authorId)).map fun k =>
    (k, ((rows.filter c).filter fun r => r.authorId == k).length)

/-- The other granularity of src/ModelLayer.py:336-337: the same aggregate
attached without the preceding `values()` grouping groups per
(base-row pk, field value). -/
def annotateInValues (rows : List JoinRow) (c : JoinRow → Bool) :
    List (Nat × Nat) :=
  (dedupKeys ((rows.filter c).map fun r => (r.blogPk, r.authorId))).map
    fun p =>
      (p.2, ((rows.filter c).filter
        fun r => r.blogPk == p.1 && r.authorId == p.2).length)

/-- Two blogs whose entries all have the same author value: author 1
appears twice under blog 1 and three times under blog 2 (a scaled-down
version of the 20/13-versus-33 dataset of src/ModelLayer.py:335-339). -/
def joinFixture : List JoinRow := [⟨1, 1⟩, ⟨1, 1⟩, ⟨2, 1⟩, ⟨2, 1⟩, ⟨2, 1⟩]

/-! ## Result reshaping: `values_list` (C8)

Modelled from the spec: `values_list` is not implemented in the
repository; `src/ModelLayer.py` lines 357-367 record its outputs.
`flat=True` is only legal with exactly one field, else the call fails
with `ValueError`. -/

inductive FieldName where
  | id
  | headline
deriving Repr, DecidableEq

inductive FieldVal where
  | intV (n : Nat)
  | strV (s : String)
deriving Repr, DecidableEq

def DRow.fieldVal (r : DRow) : FieldName → FieldVal
  | .id => .intV r.pk
  | .headline => .strV r.headline

inductive VLError where
  | valueError
deriving Repr, DecidableEq

inductive VLResult where
  | flatR (vals : List FieldVal)
  | tupleR (rows : List (List FieldVal))
deriving Repr, DecidableEq

def valuesList (rows : List DRow) (fields : List FieldName) (flat : Bool) :
    Except VLError VLResult :=
  if flat then
    match fields with
    | [f] => .ok (.flatR (rows.map fun r => r.fieldVal f))
    | _ => .error .valueError
  else .ok (.tupleR (rows.map fun r => fields.map fun f => r.fieldVal f))

end DjangoTutorial

namespace DjangoTutorial

/-- **C4.** For every pair of rows, equality holds iff they belong to the same
concrete table and have the same non-null primary key — attribute values are
irrelevant; a row whose primary key is null is equal only to the identical
instance (modelled by `instId`), and two distinct unsaved rows with null
primary keys are unequal even if all their attributes agree. -/
theorem model_eq_semantics :
    (∀ a b : Instance, ∀ x : Int, a.pk = some x →
      (modelEq a b = true ↔ a.concrete = b.concrete ∧ b.pk = some x)) ∧
    (∀ a b : Instance, ∀ x : Int, a.pk = some x →
      ∀ at1 at2 : List (String × String),
        modelEq { a with attrs := at1 } { b with attrs := at2 } = modelEq a b) ∧
    (∀ a b : Instance, a.pk = none → a.instId ≠ b.instId → modelEq a b = false) ∧
    (∀ a : Instance, modelEq a a = true) := by
  refine ⟨?_, ?_, ?_, ?_⟩
  · intro a b x hx
    simp only [modelEq, hx]
    by_cases h : a.concrete = b.concrete
    · simp [h]
    · simp [h]
  · intro a b x hx at1 at2
    simp only [modelEq, hx]
  · intro a b hnone hid
    simp only [modelEq, hnone]
    by_cases h : a.concrete = b.concrete
    · simp [h, hid]
    · simp [h]
  · intro a
    simp only [modelEq]
    cases h : a.pk <;> simp

/-- Witness for C4 on the literal fixture of src/ModelLayer.py:385-396:
`MyModel(id=1) == MyModel(id=1)`, `MyModel(id=1) != MyModel(id=2)`,
`MyModel(id=None) != MyModel(id=None)` for distinct instances,
`instance == instance`, `MyModel(id=1) == MyProxyModel(id=1)`,
`MyModel(id=1) != MultitableInherited(id=1)`. -/
theorem model_eq_semantics_witness :
    modelEq myModel1 myModel1b = true ∧
    modelEq myModel1 myModel2 = false ∧
    modelEq myModelN1 myModelN2 = false ∧
    modelEq myModelN1 myModelN1 = true ∧
    modelEq myModel1 myProxy1 = true ∧
    modelEq myModel1 myMulti1 = false := by
  refine ⟨?_, ?_, ?_, ?_, ?_, ?_⟩
  · exact (model_eq_semantics.1 myModel1 myModel1b 1 rfl).2 (by decide)
  · decide
  · exact model_eq_semantics.2.2.1 myModelN1 myModelN2 rfl (by decide)
  · exact model_eq_semantics.2.2.2 myModelN1
  · exact (model_eq_semantics.1 myModel1 myProxy1 1 rfl).2 (by decide)
  · decide

/-- **C2 counterexample.** The claim's containment relation is
order-sensitive for sequences (`specStructSubset`).  On the literal
fixture of src/ModelLayer.py:246-262 the recorded output of
`Dog.objects.filter(data__contained_by={"breed": "pekingese", "tricks":
["dance", "fetch", "hug"]})` includes Merry, whose data holds `"tricks":
["fetch", "dance"]` — yet `["fetch", "dance"]` is not an
order-preserving subsequence of `["dance", "fetch", "hug"]`, so under
the claim's order-sensitive relation Merry's data is NOT a structural
subset of the operand: the claimed "iff" fails at row Merry. -/
theorem json_containment_order_counterexample :
    merryDog ∈ filterContainedBy containsDogTable pekingeseOperand ∧
    merryDog.data = some merryData ∧
    specStructSubset pekingeseOperand merryData = false := by
  refine ⟨by decide, by decide, by decide⟩

/-- **C2 (amended).** The JSON lookups `contains` and `contained_by` are
dual: `filter(data__contains=X)` returns row R iff R stores a document of
which X is a structural subset, and `filter(data__contained_by=X)`
returns R iff R stores a document that is a structural subset of X —
where structural containment is order-insensitive for mapping keys AND
order-insensitive for sequence elements (every element of the contained
sequence must be contained in some element of the containing sequence),
recursively for nested documents; the fixture outputs of
src/ModelLayer.py:239-244 and 255-262 are reproduced (row order within a
result is unspecified without `order_by`; the model returns table
order). -/
theorem json_contains_duality :
    (∀ (dogs : List Dog) (x : JSONVal) (d : Dog),
      d ∈ filterContains dogs x ↔
        d ∈ dogs ∧ ∃ dv, d.data = some dv ∧ jsonContains dv x = true) ∧
    (∀ (dogs : List Dog) (x : JSONVal) (d : Dog),
      d ∈ filterContainedBy dogs x ↔
        d ∈ dogs ∧ ∃ dv, d.data = some dv ∧ jsonContains x dv = true) ∧
    filterContains containsDogTable (.objL [("owner", .str "Bob")]) =
      [rufusDog, megDog] ∧
    filterContains containsDogTable (.objL [("breed", .str "collie")]) =
      [megDog] ∧
    filterContains containsDogTable
      (.objL [("tricks", .arrL [.str "dance"])]) = [merryDog] ∧
    filterContainedBy containsDogTable
      (.objL [("breed", .str "collie"), ("owner", .str "Bob")]) =
      [megDog, fredDog] ∧
    filterContainedBy containsDogTable (.objL [("breed", .str "collie")]) =
      [fredDog] ∧
    filterContainedBy containsDogTable pekingeseOperand =
      [fredDog, merryDog] := by
  refine ⟨?_, ?_, by decide, by decide, by decide, by decide, by decide,
    by decide⟩
  · intro dogs x d
    rw [filterContains, List.mem_filter]
    constructor
    · rintro ⟨hd, hp⟩
      refine ⟨hd, ?_⟩
      cases h : d.data with
      | none => rw [h] at hp; simp at hp
      | some dv => rw [h] at hp; exact ⟨dv, rfl, hp⟩
    · rintro ⟨hd, dv, hdv, hc⟩
      exact ⟨hd, by rw [hdv]; exact hc⟩
  · intro dogs x d
    rw [filterContainedBy, List.mem_filter]
    constructor
    · rintro ⟨hd, hp⟩
      refine ⟨hd, ?_⟩
      cases h : d.data with
      | none => rw [h] at hp; simp at hp
      | some dv => rw [h] at hp; exact ⟨dv, rfl, hp⟩
    · rintro ⟨hd, dv, hdv, hc⟩
      exact ⟨hd, by rw [hdv]; exact hc⟩

/-- **C3.** For every JSON field, `isnull=True` matches a row iff the
stored value is SQL-null (absent), and never matches a row whose document
value is JSON-null; conversely `isnull=False` matches every row with any
stored document (including JSON-null) and never matches a row where the
value is absent; on the fixture of src/ModelLayer.py:170-181,
`isnull=True` returns `[Max]` and `isnull=False` returns `[Archie]`. -/
theorem isnull_sql_null_only :
    (∀ (dogs : List Dog) (d : Dog),
      d ∈ filterIsNull dogs true ↔ d ∈ dogs ∧ d.data = none) ∧
    (∀ (dogs : List Dog) (d : Dog),
      d ∈ filterIsNull dogs false ↔ d ∈ dogs ∧ ∃ v, d.data = some v) ∧
    (∀ (dogs : List Dog) (d : Dog), d.data = some .null →
      d ∉ filterIsNull dogs true ∧ (d ∈ dogs → d ∈ filterIsNull dogs false)) ∧
    filterIsNull nullDogTable true = [maxDog] ∧
    filterIsNull nullDogTable false = [archieDog] := by
  have hmem : ∀ (dogs : List Dog) (b : Bool) (d : Dog),
      d ∈ filterIsNull dogs b ↔ d ∈ dogs ∧ d.data.isNone = b := by
    intro dogs b d
    rw [filterIsNull, List.mem_filter]
    constructor
    · rintro ⟨hd, hp⟩
      exact ⟨hd, by simpa using hp⟩
    · rintro ⟨hd, hp⟩
      exact ⟨hd, by simpa using hp⟩
  refine ⟨?_, ?_, ?_, by decide, by decide⟩
  · intro dogs d
    rw [hmem]
    cases d.data <;> simp
  · intro dogs d
    rw [hmem]
    cases d.data <;> simp
  · intro dogs d h
    constructor
    · rw [hmem, h]
      simp
    · intro hd
      rw [hmem, h]
      exact ⟨hd, rfl⟩

/-- Witness for C3 at the Archie row (JSON-null document,
src/ModelLayer.py:172): it is excluded from `isnull=True` and included in
`isnull=False`. -/
theorem isnull_sql_null_only_witness :
    archieDog ∉ filterIsNull nullDogTable true ∧
    archieDog ∈ filterIsNull nullDogTable false := by
  have h := isnull_sql_null_only.2.2.1 nullDogTable archieDog rfl
  exact ⟨h.1, h.2 (by decide)⟩

/-- **C9.** For every row and every JSON field path, path segments descend
into the document by mapping key or numeric sequence index, and a path
that does not exist in the document makes the (total, never-failing)
lookup evaluate to false — "no match" — rather than raising an error;
the fixture lookups of src/ModelLayer.py:201-208 (`data__breed`,
`data__owner__name`, `data__owner__other_pets__0__name`) are
reproduced. -/
theorem json_path_no_match :
    (∀ (d : Dog) (path : List String) (v : JSONVal),
      pathExact d path v = true ↔
        ∃ doc w, d.data = some doc ∧ descend doc path = some w ∧
          jsonEq w v = true) ∧
    (∀ (d : Dog) (doc : JSONVal) (path : List String) (v : JSONVal),
      d.data = some doc → descend doc path = none →
        pathExact d path v = false) ∧
    filterPathExact nestedDogTable ["breed"] (.str "collie") = [megNested] ∧
    filterPathExact nestedDogTable ["owner", "name"] (.str "Bob") =
      [rufusNested] ∧
    filterPathExact nestedDogTable
      ["owner", "other_pets", "0", "name"] (.str "Fishy") = [rufusNested] ∧
    descend (.objL [("breed", .str "collie")]) ["owner"] = none := by
  refine ⟨?_, ?_, by decide, by decide, by decide, by decide⟩
  · intro d path v
    rw [pathExact]
    cases hd : d.data with
    | none => simp
    | some doc =>
        cases hw : descend doc path with
        | none => simp [hw]
        | some w =>
            simp only [hw]
            constructor
            · intro h
              exact ⟨doc, w, rfl, hw, h⟩
            · rintro ⟨doc2, w2, hdoc2, hw2, he⟩
              cases hdoc2
              rw [hw] at hw2
              cases hw2
              exact he
  · intro d doc path v hdoc hnone
    rw [pathExact, hdoc]
    simp [hnone]

/-- Witness for C9 at the Shep row (src/ModelLayer.py:210): the path
`data__owner__name` does not exist in Shep's document, and the lookup is
false there, not an error. -/
theorem json_path_no_match_witness :
    pathExact shepNested ["owner", "name"] (.str "Bob") = false := by
  exact json_path_no_match.2.1 shepNested (.objL [("breed", .str "collie")])
    ["owner", "name"] (.str "Bob") rfl rfl

/-- A row is produced by a relation-spanning filter call iff it is a current
row and some entry of its blog satisfies the condition. -/
theorem mem_blogFilterEntry {blogs : List BlogR} {entries : List EntryR}
    {c : EntryCond} {b : BlogR} :
    b ∈ blogFilterEntry blogs entries c ↔
      b ∈ blogs ∧ ∃ e, e ∈ entries ∧ e.blogId = b.pk ∧ evalEntryCond c e = true := by
  constructor
  · intro h
    rcases List.mem_flatMap.mp h with ⟨b2, hb2, hmem⟩
    rcases List.mem_map.mp hmem with ⟨e, he, heq⟩
    rcases List.mem_filter.mp he with ⟨heE, hpred⟩
    rcases (by simpa using hpred :
      e.blogId = b2.pk ∧ evalEntryCond c e = true) with ⟨hid, hc⟩
    subst heq
    exact ⟨hb2, e, heE, hid, hc⟩
  · rintro ⟨hb, e, heE, hid, hc⟩
    refine List.mem_flatMap.mpr ⟨b, hb, List.mem_map.mpr ⟨e, ?_, rfl⟩⟩
    exact List.mem_filter.mpr ⟨heE, by simp [hid, hc]⟩

/-- **C1.** For every base table with a relation-spanning field path and
every pair of conditions A and B on that path, the result set of chaining
`filter(A).filter(B)` is a superset of or equal to the result set of
`filter(A, B)` in a single call, because each chained `.filter()` re-joins
rather than narrowing the previous join; on the literal fixture of
src/ModelLayer.py:72-109 the single call yields `[Beatles Blog]` while the
chained calls yield `[Beatles Blog, Beatles Blog, Pop Music Blog]`, the
Beatles row appearing twice because it matches through two related
entries. -/
theorem chained_filter_superset :
    (∀ (blogs : List BlogR) (entries : List EntryR) (c1 c2 : EntryCond)
       (b : BlogR),
      b ∈ blogFilterEntry blogs entries (.both c1 c2) →
      b ∈ blogFilterEntryChained blogs entries c1 c2) ∧
    blogFilterEntry blogTable entryTable (.both lennonCond year2008Cond) =
      [beatlesBlog] ∧
    blogFilterEntryChained blogTable entryTable lennonCond year2008Cond =
      [beatlesBlog, beatlesBlog, popBlog] ∧
    (blogFilterEntryChained blogTable entryTable lennonCond
      year2008Cond).count beatlesBlog = 2 := by
  refine ⟨?_, by decide, by decide, by decide⟩
  intro blogs entries c1 c2 b hb
  rcases mem_blogFilterEntry.mp hb with ⟨hbB, e, heE, hid, hc⟩
  rcases (by simpa [evalEntryCond] using hc :
    evalEntryCond c1 e = true ∧ evalEntryCond c2 e = true) with ⟨hc1, hc2⟩
  exact mem_blogFilterEntry.mpr
    ⟨mem_blogFilterEntry.mpr ⟨hbB, e, heE, hid, hc1⟩, e, heE, hid, hc2⟩

/-- Witness for C1 on the fixture: the Beatles blog, produced by the single
narrow call, is also produced by the chained calls. -/
theorem chained_filter_superset_witness :
    beatlesBlog ∈
      blogFilterEntryChained blogTable entryTable lennonCond year2008Cond := by
  exact chained_filter_superset.1 blogTable entryTable lennonCond year2008Cond
    beatlesBlog (by decide)

/-- **C5.** For every Queryset handle: a single-index access before any
full-collection evaluation queries the Record Store directly and leaves the
handle uncached (so two such accesses may see different store states),
whereas after one full-collection evaluation the cached result list is
reused for every subsequent read — iteration/`list()` (`evalFull`),
`bool()`, membership, and indexing — so evaluating a materialized Queryset
twice yields identical results even if the store is mutated between the
two reads. -/
theorem queryset_caching :
    (∀ (store : List DRow) (qs : Queryset) (i : Nat), qs.cache = none →
      qs.indexAccess store i = ((runQuery store qs.cond)[i]?, qs)) ∧
    (∃ (s1 s2 : List DRow) (qs : Queryset), qs.cache = none ∧
      (qs.indexAccess s1 0).1 ≠ (qs.indexAccess s2 0).1) ∧
    (∀ (store : List DRow) (qs : Queryset), qs.cache = none →
      (qs.evalFull store).2.cache = some (runQuery store qs.cond)) ∧
    (∀ (s1 s2 : List DRow) (qs : Queryset), qs.cache = none →
      ((qs.evalFull s1).2.evalFull s2).1 = (qs.evalFull s1).1) ∧
    (∀ (store store2 : List DRow) (qs : Queryset) (rs : List DRow)
       (i : Nat) (r : DRow), qs.cache = some rs →
      qs.evalFull store = (rs, qs) ∧
      qs.evalFull store2 = (rs, qs) ∧
      qs.indexAccess store2 i = (rs[i]?, qs) ∧
      qs.boolEval store2 = (!rs.isEmpty, qs) ∧
      qs.memberEval store2 r = (rs.contains r, qs)) := by
  refine ⟨?_, ?_, ?_, ?_, ?_⟩
  · intro store qs i h
    simp [Queryset.indexAccess, h]
  · exact ⟨entryStore, entryStoreMut, freshAllQS, rfl, by decide⟩
  · intro store qs h
    simp [Queryset.evalFull, h]
  · intro s1 s2 qs h
    simp [Queryset.evalFull, h]
  · intro store store2 qs rs i r h
    refine ⟨?_, ?_, ?_, ?_, ?_⟩ <;>
      simp [Queryset.evalFull, Queryset.indexAccess, Queryset.boolEval,
        Queryset.memberEval, h]

/-- Witness for C5 on the fixture mirroring src/ModelLayer.py:145-161: a
fresh `Entry.objects.all()` handle hits the store directly on `[5]`, and an
evaluated handle reuses its cache on a mutated store. -/
theorem queryset_caching_witness :
    freshAllQS.indexAccess entryStore 5 =
      ((runQuery entryStore Cond.all)[5]?, freshAllQS) ∧
    ((freshAllQS.evalFull entryStore).2.evalFull entryStoreMut).1 =
      (freshAllQS.evalFull entryStore).1 ∧
    (freshAllQS.evalFull entryStore).2.memberEval entryStoreMut ⟨0, "Inserted entry"⟩ =
      (entryStore.contains ⟨0, "Inserted entry"⟩, (freshAllQS.evalFull entryStore).2) := by
  refine ⟨?_, ?_, ?_⟩
  · exact queryset_caching.1 entryStore freshAllQS 5 rfl
  · exact queryset_caching.2.2.2.1 entryStore entryStoreMut freshAllQS rfl
  · have h := (queryset_caching.2.2.2.2 entryStoreMut entryStoreMut
      (freshAllQS.evalFull entryStore).2 (runQuery entryStore Cond.all)
      0 ⟨0, "Inserted entry"⟩ (queryset_caching.2.2.1 entryStore freshAllQS rfl)).2.2.2.2
    have hrs : runQuery entryStore Cond.all = entryStore := by decide
    rw [hrs] at h
    exact h

/-- **C7.** A single-result fetch (`get`) raises `DoesNotExist` when zero
rows match and `MultipleResultsError` when more than one row matches, the
two error kinds being distinct; `get` never silently returns a row for a
zero-match, and exactly one match yields that row. -/
theorem get_error_semantics :
    (∀ (store : List DRow) (c : Cond), runQuery store c = [] →
      getOne store c = .error .doesNotExist) ∧
    (∀ (store : List DRow) (c : Cond), 1 < (runQuery store c).length →
      getOne store c = .error .multipleResults) ∧
    (∀ (store : List DRow) (c : Cond) (r : DRow), runQuery store c = [r] →
      getOne store c = .ok r) ∧
    (GetError.doesNotExist ≠ GetError.multipleResults) ∧
    (∀ (store : List DRow) (c : Cond), runQuery store c = [] →
      ∀ r : DRow, getOne store c ≠ .ok r) := by
  refine ⟨?_, ?_, ?_, by decide, ?_⟩
  · intro store c h
    simp [getOne, h]
  · intro store c h
    unfold getOne
    match hq : runQuery store c with
    | [] => rw [hq] at h; simp at h
    | [r] => rw [hq] at h; simp at h
    | a :: b :: t => rfl
  · intro store c r h
    simp [getOne, h]
  · intro store c h r
    simp [getOne, h]

/-- Witness for C7: over the entry fixture, a condition matching no row
errors with `doesNotExist`, one matching several rows errors with
`multipleResults`, and one matching exactly one row returns it. -/
theorem get_error_semantics_witness :
    getOne entryStore (Cond.headlineIs "No such") = .error .doesNotExist ∧
    getOne entryStore (Cond.pkGt 4) = .error .multipleResults ∧
    getOne entryStore (Cond.headlineIs "Third entry") = .ok ⟨3, "Third entry"⟩ := by
  refine ⟨?_, ?_, ?_⟩
  · exact get_error_semantics.1 entryStore (Cond.headlineIs "No such") (by decide)
  · exact get_error_semantics.2.1 entryStore (Cond.pkGt 4) (by decide)
  · exact get_error_semantics.2.2.1 entryStore (Cond.headlineIs "Third entry")
      ⟨3, "Third entry"⟩ (by decide)

/-- Membership in first-occurrence deduplication. -/
theorem mem_dedupGo {α : Type} [DecidableEq α] (x : α) :
    ∀ (xs seen : List α), x ∈ dedupGo seen xs ↔ x ∈ xs ∧ x ∉ seen := by
  intro xs
  induction xs with
  | nil => intro seen; simp [dedupGo]
  | cons y ys ih =>
      intro seen
      rw [dedupGo]
      by_cases hy : y ∈ seen
      · rw [if_pos hy, ih seen]
        simp only [List.mem_cons]
        constructor
        · rintro ⟨hx, hs⟩
          exact ⟨Or.inr hx, hs⟩
        · rintro ⟨hx | hx, hs⟩
          · subst hx; exact absurd hy hs
          · exact ⟨hx, hs⟩
      · rw [if_neg hy]
        simp only [List.mem_cons, ih (y :: seen)]
        constructor
        · rintro (rfl | ⟨hx, hs⟩)
          · exact ⟨Or.inl rfl, hy⟩
          · exact ⟨Or.inr hx, fun h => hs (Or.inr h)⟩
        · rintro ⟨rfl | hx, hs⟩
          · exact Or.inl rfl
          · by_cases hxy : x = y
            · exact Or.inl hxy
            · exact Or.inr ⟨hx, fun h => h.elim (fun he => hxy he) (fun hi => hs hi)⟩

theorem mem_dedupKeys {α : Type} [DecidableEq α] (x : α) (xs : List α) :
    x ∈ dedupKeys xs ↔ x ∈ xs := by
  rw [dedupKeys, mem_dedupGo]
  simp

theorem nodup_dedupGo {α : Type} [DecidableEq α] :
    ∀ (xs seen : List α), (dedupGo seen xs).Nodup := by
  intro xs
  induction xs with
  | nil => intro seen; simp [dedupGo]
  | cons y ys ih =>
      intro seen
      rw [dedupGo]
      by_cases hy : y ∈ seen
      · rw [if_pos hy]; exact ih seen
      · rw [if_neg hy, List.nodup_cons]
        refine ⟨fun hmem => ?_, ih (y :: seen)⟩
        rcases (mem_dedupGo y ys (y :: seen)).mp hmem with ⟨_, hns⟩
        exact hns (List.mem_cons_self y seen)

/-- **C6.** Applying `values(fields)` before `annotate(aggregate)` computes
the aggregate once per distinct combination of the `values()` fields
(first conjunct: a key is emitted iff it occurs among the rows satisfying
the condition, with the count over exactly those rows; second conjunct:
each distinct key is emitted exactly once), whereas attaching the same
aggregate without the preceding `values()` grouping groups per
(base-row pk, field value) — a different granularity — and the two orders
produce distinguishable results on the dataset scaled down from
src/ModelLayer.py:335-339: one row `(1, 5)` versus two rows
`(1, 2), (1, 3)`. -/
theorem values_annotate_grouping :
    (∀ (rows : List JoinRow) (c : JoinRow → Bool) (k n : Nat),
      (k, n) ∈ valuesThenAnnotate rows c ↔
        k ∈ (rows.filter c).map JoinRow.authorId ∧
        n = ((rows.filter c).filter fun r => r.authorId == k).length) ∧
    (∀ (rows : List JoinRow) (c : JoinRow → Bool),
      ((valuesThenAnnotate rows c).map Prod.fst).Nodup) ∧
    valuesThenAnnotate joinFixture (fun _ => true) = [(1, 5)] ∧
    annotateInValues joinFixture (fun _ => true) = [(1, 2), (1, 3)] ∧
    valuesThenAnnotate joinFixture (fun _ => true) ≠
      annotateInValues joinFixture (fun _ => true) := by
  refine ⟨?_, ?_, by decide, by decide, by decide⟩
  · intro rows c k n
    rw [valuesThenAnnotate]
    constructor
    · intro h
      rcases List.mem_map.mp h with ⟨k2, hk2, heq⟩
      injection heq with h1 h2
      subst h1
      subst h2
      exact ⟨(mem_dedupKeys _ _).mp hk2, rfl⟩
    · rintro ⟨hk, rfl⟩
      exact List.mem_map.mpr ⟨k, (mem_dedupKeys k _).mpr hk, rfl⟩
  · intro rows c
    rw [valuesThenAnnotate, List.map_map]
    have hcomp : (Prod.fst ∘ fun k : Nat =>
        (k, ((rows.filter c).filter fun r => r.authorId == k).length)) =
        fun k : Nat => k := rfl
    rw [hcomp]
    simpa using nodup_dedupGo ((rows.filter c).map JoinRow.authorId) []

/-- **C8.** For every Queryset evaluated with `values_list(field,
flat=True)` over exactly one field, the result is the sequence of bare
scalars elementwise equal to `[row[field] for row in results]`; passing
`flat=True` together with more than one field fails with `ValueError`;
on the fixture mirroring src/ModelLayer.py:363-367,
`values_list("id", flat=True)` yields the bare ids `[1, 2, 3, 4, 5, 6]`. -/
theorem values_list_flat :
    (∀ (rows : List DRow) (f : FieldName),
      valuesList rows [f] true =
        .ok (.flatR (rows.map fun r => r.fieldVal f))) ∧
    (∀ (rows : List DRow) (fields : List FieldName), 1 < fields.length →
      valuesList rows fields true = .error .valueError) ∧
    valuesList entryStore [.id] true =
      .ok (.flatR [.intV 1, .intV 2, .intV 3, .intV 4, .intV 5, .intV 6]) ∧
    valuesList entryStore [.id, .headline] true = .error .valueError := by
  refine ⟨?_, ?_, rfl, rfl⟩
  · intro rows f
    rfl
  · intro rows fields h
    rcases fields with _ | ⟨a, _ | ⟨b, t⟩⟩
    · simp at h
    · simp at h
    · rfl

/-- Witness for C8: `flat=True` with the two fields `id` and `headline`
fails with `ValueError` on the entry fixture. -/
theorem values_list_flat_witness :
    valuesList entryStore [FieldName.id, FieldName.headline] true =
      .error .valueError := by
  exact values_list_flat.2.1 entryStore [FieldName.id, FieldName.headline]
    (by decide)

/-- **C10.** `Question.was_published_recently` returns true iff the question's
`pub_date` lies within the closed interval from one day before the current
time up to the current time; in particular it returns false for any
`pub_date` in the future, not only for dates older than one day. -/
theorem was_published_recently_iff :
    (∀ now pd : Int,
      was_published_recently now pd = true ↔ now - oneDay ≤ pd ∧ pd ≤ now) ∧
    (∀ now pd : Int, now < pd → was_published_recently now pd = false) := by
  constructor
  · intro now pd
    simp [was_published_recently]
  · intro now pd h
    simp only [was_published_recently, Bool.and_eq_false_iff]
    right
    simpa using not_le.mpr h

/-- Witness for C10: at `now = 0`, a `pub_date` of half a day ago is
recent, and a future `pub_date` is not. -/
theorem was_published_recently_iff_witness :
    was_published_recently 0 (-43200) = true ∧
    was_published_recently 0 1 = false := by
  constructor
  · exact (was_published_recently_iff.1 0 (-43200)).2 (by constructor <;> decide)
  · exact was_published_recently_iff.2 0 1 (by decide)

end DjangoTutorial
